import Mathlib

/-!
Verification of the xero-cashflow-forecast frontend against its
natural-language specification.

JavaScript numbers are embedded as rationals (`ℚ`); a value that may be
`NaN` or `undefined` is embedded as `Option ℚ` with `none` standing for
the missing/NaN case.  Fields that JavaScript treats by truthiness
(`xero_id`, `|| default` fallbacks) are modelled with explicit
falsiness tests.
-/

namespace CashFlow

/-- JavaScript `x || d` for a numeric `x` that may be NaN/undefined:
the fallback `d` is taken when `x` is missing (NaN) or equal to `0`,
both of which are falsy. -/
def jsOrDefault (x : Option ℚ) (d : ℚ) : ℚ :=
  match x with
  | none => d
  | some v => if v = 0 then d else v

/-- Dashboard.jsx line 85:
`const monthlyBurnRate = Math.abs(transactionSummary.total_expenses / 3) || 8000`.
The input is `transactionSummary.total_expenses`, which is `none` when the
summary has not loaded (then `undefined / 3` is NaN).  The divisor is the
constant `3`; `Math.abs` of a missing value stays missing. -/
def monthlyBurnRate (total_expenses : Option ℚ) : ℚ :=
  jsOrDefault (total_expenses.map (fun v => |v / 3|)) 8000

/-- The burn rate as the specification words it (spec §4.4): the average of
`|total_expenses|` over the number of whole months spanned by the history,
with a minimum denominator of 1.  This definition follows the spec text and
exists only to be compared with `monthlyBurnRate`, which follows the code. -/
def specMonthlyBurnRate (total_expenses : ℚ) (monthsSpanned : ℕ) : ℚ :=
  |total_expenses| / (max monthsSpanned 1 : ℕ)

/-- Modelled from the spec: the scenario-simulation backend (POST
/api/simulate) is not under src/; only its caller
(ScenarioSimulator.jsx) is.  Spec §4.3: `improvement_percentage =
(scenario.final_balance − baseline.final_balance) / |baseline.final_balance|
× 100, with a defined result of 0 when baseline.final_balance is 0`. -/
def improvementPercentage (scenarioFinal baselineFinal : ℚ) : ℚ :=
  if baselineFinal = 0 then 0
  else (scenarioFinal - baselineFinal) / |baselineFinal| * 100

/-- Claim C1 (counterexample): the displayed burn rate does not equal the
spec's months-spanned average.  With `total_expenses = -6000` over a history
spanning 1 whole month the spec value is 6000 but the dashboard shows 2000
(it always divides by 3); with `total_expenses = 0` the spec value is 0 but
the dashboard shows the fallback 8000. -/
theorem burn_rate_counterexample :
    monthlyBurnRate (some (-6000)) = 2000 ∧
      specMonthlyBurnRate (-6000) 1 = 6000 ∧
      monthlyBurnRate (some 0) = 8000 ∧
      specMonthlyBurnRate 0 1 = 0 ∧
      ((2000 : ℚ) ≠ 6000 ∧ (8000 : ℚ) ≠ 0) := by
  refine ⟨?_, ?_, ?_, ?_, by norm_num⟩ <;>
    norm_num [monthlyBurnRate, specMonthlyBurnRate, jsOrDefault]

/-- Claim C1 (amended): the monthly burn rate displayed by the dashboard is
`|total_expenses / 3|` — a fixed three-month denominator, not the number of
whole months spanned — except that when that quantity is falsy (0, or NaN
because the summary is missing) the hard-coded default 8000 is shown. -/
theorem burn_rate_fixed_denominator (te : ℚ) :
    monthlyBurnRate (some te) = (if te = 0 then 8000 else |te| / 3) ∧
      monthlyBurnRate none = 8000 := by
  constructor
  · by_cases h : te = 0
    · simp [monthlyBurnRate, jsOrDefault, h]
    · have h3 : |te / 3| = |te| / 3 := by
        rw [abs_div]
        norm_num
      have hne : |te / 3| ≠ 0 := by
        simp [abs_eq_zero]
        intro hc
        exact h (by linarith)
      simp [monthlyBurnRate, jsOrDefault, hne, h, h3]
  · simp [monthlyBurnRate, jsOrDefault]

/-- Claim C3: ratio computations reaching the dashboard are guarded.  The
improvement percentage (spec-modelled backend, displayed at
ScenarioSimulator.jsx lines 223–237) returns the defined sentinel 0 when the
baseline final balance is 0; the dashboard burn rate's divisor is the
nonzero constant 3, and even a missing/NaN summary maps to the defined
number 8000 rather than a propagated NaN. -/
theorem division_by_zero_guards (s : ℚ) :
    improvementPercentage s 0 = 0 ∧
      ((3 : ℚ) ≠ 0 ∧ monthlyBurnRate none = 8000) := by
  refine ⟨?_, by norm_num, ?_⟩
  · simp [improvementPercentage]
  · simp [monthlyBurnRate, jsOrDefault]

/-- A point of a forecast series (spec §3 ForecastPoint).  `dayOffset` is the
number of days after the last historical date (so offsets 1..days_ahead are
the dates strictly after the history). -/
structure ForecastPoint where
  dayOffset : ℕ
  predicted_balance : ℚ
  confidence_lower : ℚ
  confidence_upper : ℚ
deriving DecidableEq, Repr

/-- Output of the forecast engine: the projected points together with the
low-data flag with which the engine signals the flat-projection fallback to
its caller (spec §7 InsufficientDataError is soft, reported as a flag). -/
structure ForecastOutput where
  points : List ForecastPoint
  low_data : Bool
deriving DecidableEq, Repr

/-- Last known balance of a dense daily history of cumulative balances;
0 for an empty history (spec §3: running sum seeded by a starting balance,
default 0). -/
def lastBalance (history : List ℚ) : ℚ :=
  history.getLast?.getD 0

/-- Flat projection (spec §4.2): every predicted balance is the last known
balance and both confidence bounds equal the point estimate. -/
def flatForecast (b : ℚ) (days_ahead : ℕ) : List ForecastPoint :=
  (List.range days_ahead).map (fun i => ⟨i + 1, b, b, b⟩)

/-- Sum of a list of rationals. -/
def sumQ (l : List ℚ) : ℚ :=
  l.foldl (fun a b => a + b) 0

/-- Least-squares slope and intercept of `ys` against the day indices
0, 1, …, n−1 (spec §4.2 fallback: linear regression of cumulative_balance
against day-index).  Division in `ℚ` is total, so the definition is total;
for n ≥ 2 the denominator is positive. -/
def linFit (ys : List ℚ) : ℚ × ℚ :=
  let n : ℚ := ys.length
  let xs : List ℚ := (List.range ys.length).map (fun i => (i : ℚ))
  let sx := sumQ xs
  let sy := sumQ ys
  let sxy := sumQ ((xs.zip ys).map (fun p => p.1 * p.2))
  let sxx := sumQ (xs.map (fun x => x * x))
  let slope := (n * sxy - sx * sy) / (n * sxx - sx * sx)
  (slope, (sy - slope * sx) / n)

/-- Mean absolute residual of the fit, used as the width unit of the
heuristic confidence bounds (spec §4.2/§9: bounds widen with the distance
into the future; the exact coefficients are an implementer decision). -/
def meanAbsResid (ys : List ℚ) : ℚ :=
  let f := linFit ys
  let resids := (List.range ys.length).map
    (fun i => |(ys.getD i 0) - (f.2 + f.1 * (i : ℚ))|)
  sumQ resids / (ys.length : ℚ)

/-- Modelled from the spec: the forecast engine (backend POST /api/forecast)
is absent from src/; only its caller (Dashboard.jsx via
forecastService) is.  Spec §4.2: with fewer than 2 historical dense daily
points the engine falls back to a flat projection (predicted_balance = last
known balance for every future day, confidence bounds equal to the point
estimate) and signals a low-data condition rather than failing; with ≥ 2
points it fits a model — here the deterministic linear fallback of §4.2,
extrapolating the regression line with bounds widening linearly in the
horizon step (exact coefficients left open by §9). -/
def forecast (history : List ℚ) (days_ahead : ℕ) : ForecastOutput :=
  if history.length < 2 then
    { points := flatForecast (lastBalance history) days_ahead, low_data := true }
  else
    let f := linFit history
    let w := meanAbsResid history
    let n : ℚ := history.length
    { points := (List.range days_ahead).map (fun i =>
        let pred := f.2 + f.1 * (n - 1 + (i + 1 : ℕ))
        ⟨i + 1, pred, pred - w * (i + 1 : ℕ), pred + w * (i + 1 : ℕ)⟩),
      low_data := false }

/-- Claim C2: for every history with fewer than 2 points and every
days_ahead, `forecast` returns a series of length exactly days_ahead in
which every predicted balance equals the last known balance, with both
confidence bounds equal to the point estimate, and the low-data condition
is signalled to the caller. -/
theorem forecast_low_data_flat (history : List ℚ) (days_ahead : ℕ)
    (h : history.length < 2) :
    (forecast history days_ahead).points.length = days_ahead ∧
      (∀ p ∈ (forecast history days_ahead).points,
        p.predicted_balance = lastBalance history ∧
          p.confidence_lower = p.predicted_balance ∧
          p.confidence_upper = p.predicted_balance) ∧
      (forecast history days_ahead).low_data = true := by
  refine ⟨?_, ?_, ?_⟩
  · simp [forecast, h, flatForecast]
  · intro p hp
    simp only [forecast, h, if_pos, flatForecast, List.mem_map,
      List.mem_range] at hp
    obtain ⟨i, _, rfl⟩ := hp
    exact ⟨rfl, rfl, rfl⟩
  · simp [forecast, h]

/-- Claim C2 (witness): a one-point history of balance 800 with
days_ahead = 3. -/
theorem forecast_low_data_flat_witness :
    ([(800 : ℚ)].length < 2) ∧
      ((forecast [(800 : ℚ)] 3).points.length = 3 ∧
        (∀ p ∈ (forecast [(800 : ℚ)] 3).points,
          p.predicted_balance = lastBalance [(800 : ℚ)] ∧
            p.confidence_lower = p.predicted_balance ∧
            p.confidence_upper = p.predicted_balance) ∧
        (forecast [(800 : ℚ)] 3).low_data = true) :=
  ⟨by decide, forecast_low_data_flat [(800 : ℚ)] 3 (by decide)⟩

/-- Transaction type as selected in the add-transaction form
(Transactions.jsx lines 346–354: the select offers only income and
expense). -/
inductive TxType where
  | income
  | expense
deriving DecidableEq, Repr

/-- A transaction as rendered by the transactions table.  Only the fields
the verified code paths touch are kept; `xero_id` is the external id,
absent (`none`) for manually entered transactions. -/
structure Transaction where
  id : ℕ
  description : String
  amount : ℚ
  type : TxType
  xero_id : Option String
deriving DecidableEq, Repr

/-- JavaScript truthiness of an optional string field: `undefined`/`null`
and the empty string are falsy. -/
def jsTruthyStr : Option String → Bool
  | none => false
  | some s => decide (s ≠ "")

/-- The actions offered in a transaction's table row. -/
inductive RowAction where
  | delete
deriving DecidableEq, Repr

/-- Transactions.jsx lines 285–294: the Delete button is rendered under the
guard `!transaction.xero_id`, and it is the only action in the row. -/
def rowActions (t : Transaction) : List RowAction :=
  if jsTruthyStr t.xero_id then [] else [RowAction.delete]

/-- Claim C4: the delete action is offered if and only if the transaction
is manual, i.e. carries no external Xero id (absent, or the falsy empty
string) — so externally synced transactions cannot be deleted through this
interface. -/
theorem delete_offered_iff_manual (t : Transaction) :
    RowAction.delete ∈ rowActions t ↔
      (t.xero_id = none ∨ t.xero_id = some "") := by
  rcases ht : t.xero_id with _ | s
  · simp [rowActions, jsTruthyStr, ht]
  · by_cases hs : s = ""
    · simp [rowActions, jsTruthyStr, ht, hs]
    · simp [rowActions, jsTruthyStr, ht, hs]

/-- Transactions.jsx line 83: the submitted amount is
`parseFloat(newTransaction.amount) * (newTransaction.type === 'expense' ? -1 : 1)`,
with `entered` the parsed value of the amount field. -/
def submittedAmount (entered : ℚ) (t : TxType) : ℚ :=
  entered * (match t with | .expense => -1 | .income => 1)

/-- Claim C8: a transaction created through the add-transaction form with
entered amount `a` is submitted with amount `-a` when the selected type is
expense and `a` when it is income. -/
theorem submitted_amount_signed (a : ℚ) :
    submittedAmount a TxType.expense = -a ∧
      submittedAmount a TxType.income = a := by
  constructor
  · simp [submittedAmount]
  · simp [submittedAmount]

/-- The simulator's parameter state (ScenarioSimulator.jsx lines 6–13).
`days_ahead` is kept as a rational because preset payloads are arbitrary
JSON numbers. -/
structure ScenarioParams where
  revenue_change_percent : ℚ
  expense_change_percent : ℚ
  one_time_income : ℚ
  one_time_expense : ℚ
  days_ahead : ℚ
  scenario_name : String
deriving DecidableEq, Repr

/-- The initial parameter state, also restored by `resetParameters`
(ScenarioSimulator.jsx lines 6–13 and 52–62). -/
def initialParams : ScenarioParams :=
  { revenue_change_percent := 0
    expense_change_percent := 0
    one_time_income := 0
    one_time_expense := 0
    days_ahead := 90
    scenario_name := "Custom Scenario" }

/-- A preset's parameter payload, as returned by the backend
GET /api/simulate/presets (that code is not under src/): a partial record;
`none` means the field is absent from `preset.parameters`. -/
structure PresetParams where
  revenue_change_percent : Option ℚ
  expense_change_percent : Option ℚ
  one_time_income : Option ℚ
  one_time_expense : Option ℚ
  days_ahead : Option ℚ
  scenario_name : Option String
deriving DecidableEq, Repr

/-- ScenarioSimulator.jsx lines 45–50: `applyPreset` merges the preset's
fields over the current parameters by object spread, with no validation or
clamping of the incoming values. -/
def applyPreset (p : ScenarioParams) (pr : PresetParams) : ScenarioParams :=
  { revenue_change_percent := pr.revenue_change_percent.getD p.revenue_change_percent
    expense_change_percent := pr.expense_change_percent.getD p.expense_change_percent
    one_time_income := pr.one_time_income.getD p.one_time_income
    one_time_expense := pr.one_time_expense.getD p.one_time_expense
    days_ahead := pr.days_ahead.getD p.days_ahead
    scenario_name := pr.scenario_name.getD p.scenario_name }

/-- The value an HTML range input with min −50 and max 100 can deliver: the
control coerces anything outside the interval to the nearer bound
(ScenarioSimulator.jsx lines 100–137, the two sliders). -/
def clampSlider (v : ℚ) : ℚ :=
  max (-50) (min 100 v)

/-- JavaScript `parseFloat(value) || 0` on the one-time number inputs
(ScenarioSimulator.jsx lines 140–167): `none` is the NaN result of an
unparsable input and falls back to 0; a parsed 0 is falsy and also gives 0,
which coincides with `Option.getD 0`.  The inputs carry no `min` attribute,
so the parsed value may be negative. -/
def parseFloatOrZero (v : Option ℚ) : ℚ :=
  v.getD 0

/-- Events through which the user (or server data) can change the
simulator's parameter state. -/
inductive UIEvent where
  | setRevenue (v : ℚ)
  | setExpense (v : ℚ)
  | setOneTimeIncome (v : Option ℚ)
  | setOneTimeExpense (v : Option ℚ)
  | applyPresetEvent (pr : PresetParams)
  | resetEvent
deriving DecidableEq, Repr

/-- One step of the simulator UI: slider changes go through the range
control (clamped), one-time inputs through `parseFloat(v) || 0`, presets
through the unvalidated merge, and reset restores the initial state. -/
def step (p : ScenarioParams) : UIEvent → ScenarioParams
  | .setRevenue v => { p with revenue_change_percent := clampSlider v }
  | .setExpense v => { p with expense_change_percent := clampSlider v }
  | .setOneTimeIncome v => { p with one_time_income := parseFloatOrZero v }
  | .setOneTimeExpense v => { p with one_time_expense := parseFloatOrZero v }
  | .applyPresetEvent pr => applyPreset p pr
  | .resetEvent => initialParams

/-- The parameter state after a sequence of events, starting from the
initial state.  `runSimulation` (ScenarioSimulator.jsx lines 31–43) sends
exactly this state as the request body of POST /api/simulate. -/
def run (evs : List UIEvent) : ScenarioParams :=
  evs.foldl step initialParams

/-- An invariant that holds initially and is preserved by every step whose
event satisfies `ok` holds of the state after any `ok`-sequence. -/
theorem foldl_step_inv (P : ScenarioParams → Prop) (ok : UIEvent → Bool)
    (hstep : ∀ p e, P p → ok e = true → P (step p e)) :
    ∀ (evs : List UIEvent) (p : ScenarioParams),
      P p → (∀ e ∈ evs, ok e = true) → P (evs.foldl step p) := by
  intro evs
  induction evs with
  | nil => intro p hp _; exact hp
  | cons e es ih =>
      intro p hp h
      exact ih _ (hstep p e hp (h e (List.mem_cons_self _ _)))
        (fun x hx => h x (List.mem_cons_of_mem _ hx))

/-- A preset payload whose `days_ahead`, when present, lies in (0, 365]. -/
def presetDaysOk (pr : PresetParams) : Bool :=
  match pr.days_ahead with
  | none => true
  | some d => decide (0 < d ∧ d ≤ 365)

/-- Events whose effect on `days_ahead` stays in (0, 365]: every event
except a preset carrying an out-of-range `days_ahead`. -/
def evDaysOk : UIEvent → Bool
  | .applyPresetEvent pr => presetDaysOk pr
  | _ => true

/-- Claim C5 (counterexample): `applyPreset` copies a server-supplied
`days_ahead` into the state without validation, so a preset carrying
`days_ahead = 400` puts the simulator in a state from which the request
would be sent with days_ahead 400 > 365. -/
theorem days_ahead_counterexample :
    ¬ ∀ evs : List UIEvent,
        0 < (run evs).days_ahead ∧ (run evs).days_ahead ≤ 365 := by
  intro h
  have h2 :=
    (h [UIEvent.applyPresetEvent ⟨none, none, none, none, some 400, none⟩]).2
  have he :
      (run [UIEvent.applyPresetEvent
        ⟨none, none, none, none, some 400, none⟩]).days_ahead = 400 := rfl
  rw [he] at h2
  norm_num at h2

/-- Claim C5 (amended): `days_ahead` starts at 90, is reset to 90, and no
slider or one-time input touches it, so after any event sequence in which
every applied preset either omits `days_ahead` or supplies a value in
(0, 365], the days_ahead sent with a simulation request is strictly
positive and at most 365.  Preset payloads are not validated by the UI. -/
theorem days_ahead_request_bounded (evs : List UIEvent)
    (h : ∀ e ∈ evs, evDaysOk e = true) :
    0 < (run evs).days_ahead ∧ (run evs).days_ahead ≤ 365 := by
  refine foldl_step_inv
    (fun p => 0 < p.days_ahead ∧ p.days_ahead ≤ 365) evDaysOk
    ?_ evs initialParams (by norm_num [initialParams]) h
  intro p e hp hok
  cases e with
  | setRevenue v => exact hp
  | setExpense v => exact hp
  | setOneTimeIncome v => exact hp
  | setOneTimeExpense v => exact hp
  | resetEvent => norm_num [step, initialParams]
  | applyPresetEvent pr =>
      cases hd : pr.days_ahead with
      | none => simpa [step, applyPreset, hd] using hp
      | some d =>
          have hdd : 0 < d ∧ d ≤ 365 := by
            have h2 := hok
            simp [evDaysOk, presetDaysOk, hd] at h2
            exact h2
          simpa [step, applyPreset, hd] using hdd

/-- Claim C5 (witness): a slider change followed by an in-range preset. -/
theorem days_ahead_request_bounded_witness :
    0 < (run [UIEvent.setRevenue 20,
        UIEvent.applyPresetEvent
          ⟨some 40, some (-10), some 1000, some 0, some 30,
            some "Optimistic"⟩]).days_ahead ∧
      (run [UIEvent.setRevenue 20,
        UIEvent.applyPresetEvent
          ⟨some 40, some (-10), some 1000, some 0, some 30,
            some "Optimistic"⟩]).days_ahead ≤ 365 :=
  days_ahead_request_bounded
    [UIEvent.setRevenue 20,
      UIEvent.applyPresetEvent
        ⟨some 40, some (-10), some 1000, some 0, some 30, some "Optimistic"⟩]
    (by decide)

/-- A preset payload whose percentage fields, when present, lie in
[−50, 100]. -/
def presetPercentOk (pr : PresetParams) : Bool :=
  (match pr.revenue_change_percent with
   | none => true
   | some v => decide (-50 ≤ v ∧ v ≤ 100)) &&
  (match pr.expense_change_percent with
   | none => true
   | some v => decide (-50 ≤ v ∧ v ≤ 100))

/-- Events whose effect keeps the percentage fields inside [−50, 100]. -/
def evPercentOk : UIEvent → Bool
  | .applyPresetEvent pr => presetPercentOk pr
  | _ => true

/-- Both slider values delivered by the range controls lie in [−50, 100]. -/
theorem clampSlider_mem (v : ℚ) :
    -50 ≤ clampSlider v ∧ clampSlider v ≤ 100 := by
  constructor
  · exact le_max_left _ _
  · exact max_le (by norm_num) (min_le_left _ _)

/-- Claim C6 (counterexample): `applyPreset` copies server-supplied
percentage fields without clamping, so a preset carrying
`revenue_change_percent = 200` reaches a state outside [−50, 100]. -/
theorem percent_params_counterexample :
    ¬ ∀ evs : List UIEvent,
        (-50 ≤ (run evs).revenue_change_percent ∧
            (run evs).revenue_change_percent ≤ 100) ∧
          (-50 ≤ (run evs).expense_change_percent ∧
            (run evs).expense_change_percent ≤ 100) := by
  intro h
  have h2 :=
    (h [UIEvent.applyPresetEvent ⟨some 200, none, none, none, none, none⟩]).1.2
  have he :
      (run [UIEvent.applyPresetEvent
        ⟨some 200, none, none, none, none, none⟩]).revenue_change_percent
        = 200 := rfl
  rw [he] at h2
  norm_num at h2

/-- Claim C6 (amended): the two percentage fields start at 0, are reset to
0, and the sliders can only deliver values in [−50, 100], so after any
event sequence in which every applied preset's percentage fields (when
present) lie in [−50, 100], both revenue_change_percent and
expense_change_percent lie in [−50, 100].  Preset payloads are not
validated by the UI. -/
theorem percent_params_bounded (evs : List UIEvent)
    (h : ∀ e ∈ evs, evPercentOk e = true) :
    (-50 ≤ (run evs).revenue_change_percent ∧
        (run evs).revenue_change_percent ≤ 100) ∧
      (-50 ≤ (run evs).expense_change_percent ∧
        (run evs).expense_change_percent ≤ 100) := by
  refine foldl_step_inv
    (fun p => (-50 ≤ p.revenue_change_percent ∧
        p.revenue_change_percent ≤ 100) ∧
      (-50 ≤ p.expense_change_percent ∧ p.expense_change_percent ≤ 100))
    evPercentOk ?_ evs initialParams (by norm_num [initialParams]) h
  intro p e hp hok
  cases e with
  | setRevenue v => exact ⟨clampSlider_mem v, hp.2⟩
  | setExpense v => exact ⟨hp.1, clampSlider_mem v⟩
  | setOneTimeIncome v => exact hp
  | setOneTimeExpense v => exact hp
  | resetEvent => norm_num [step, initialParams]
  | applyPresetEvent pr =>
      have h2 := hok
      simp only [evPercentOk, presetPercentOk, Bool.and_eq_true] at h2
      constructor
      · cases hr : pr.revenue_change_percent with
        | none => simpa [step, applyPreset, hr] using hp.1
        | some v =>
            have hv : -50 ≤ v ∧ v ≤ 100 := by
              have h3 := h2.1
              simp [hr] at h3
              exact h3
            simpa [step, applyPreset, hr] using hv
      · cases hr : pr.expense_change_percent with
        | none => simpa [step, applyPreset, hr] using hp.2
        | some v =>
            have hv : -50 ≤ v ∧ v ≤ 100 := by
              have h3 := h2.2
              simp [hr] at h3
              exact h3
            simpa [step, applyPreset, hr] using hv

/-- Claim C6 (witness): two slider moves, an in-range preset and a reset. -/
theorem percent_params_bounded_witness :
    (-50 ≤ (run [UIEvent.setRevenue 75, UIEvent.setExpense (-30),
          UIEvent.applyPresetEvent
            ⟨some 40, some (-10), none, none, none, some "Growth"⟩,
          UIEvent.resetEvent]).revenue_change_percent ∧
        (run [UIEvent.setRevenue 75, UIEvent.setExpense (-30),
          UIEvent.applyPresetEvent
            ⟨some 40, some (-10), none, none, none, some "Growth"⟩,
          UIEvent.resetEvent]).revenue_change_percent ≤ 100) ∧
      (-50 ≤ (run [UIEvent.setRevenue 75, UIEvent.setExpense (-30),
          UIEvent.applyPresetEvent
            ⟨some 40, some (-10), none, none, none, some "Growth"⟩,
          UIEvent.resetEvent]).expense_change_percent ∧
        (run [UIEvent.setRevenue 75, UIEvent.setExpense (-30),
          UIEvent.applyPresetEvent
            ⟨some 40, some (-10), none, none, none, some "Growth"⟩,
          UIEvent.resetEvent]).expense_change_percent ≤ 100) :=
  percent_params_bounded
    [UIEvent.setRevenue 75, UIEvent.setExpense (-30),
      UIEvent.applyPresetEvent
        ⟨some 40, some (-10), none, none, none, some "Growth"⟩,
      UIEvent.resetEvent]
    (by decide)

/-- Events whose effect keeps the one-time fields nonnegative: one-time
inputs whose parsed value is ≥ 0 and presets whose one-time fields (when
present) are ≥ 0. -/
def evOneTimeOk : UIEvent → Bool
  | .setOneTimeIncome v => decide (0 ≤ parseFloatOrZero v)
  | .setOneTimeExpense v => decide (0 ≤ parseFloatOrZero v)
  | .applyPresetEvent pr =>
      decide (0 ≤ pr.one_time_income.getD 0) &&
        decide (0 ≤ pr.one_time_expense.getD 0)
  | _ => true

/-- Claim C7 (counterexample): the one-time number inputs carry no `min`
attribute and the stored value is just `parseFloat(value) || 0`, so typing
−500 into the one-time income field reaches a state with
one_time_income = −500 < 0 — no preset needed. -/
theorem one_time_counterexample :
    ¬ ∀ evs : List UIEvent,
        0 ≤ (run evs).one_time_income ∧ 0 ≤ (run evs).one_time_expense := by
  intro h
  have h2 := (h [UIEvent.setOneTimeIncome (some (-500))]).1
  have he :
      (run [UIEvent.setOneTimeIncome (some (-500))]).one_time_income
        = -500 := rfl
  rw [he] at h2
  norm_num at h2

/-- Claim C7 (amended): one_time_income and one_time_expense start at 0,
are reset to 0, and an unparsable input stores 0; after any event sequence
in which every one-time input parses to a value ≥ 0 and every applied
preset's one-time fields (when present) are ≥ 0, both fields are ≥ 0.  The
UI itself imposes no lower bound on what the user types or on preset
payloads. -/
theorem one_time_nonneg_conditional (evs : List UIEvent)
    (h : ∀ e ∈ evs, evOneTimeOk e = true) :
    0 ≤ (run evs).one_time_income ∧ 0 ≤ (run evs).one_time_expense := by
  refine foldl_step_inv
    (fun p => 0 ≤ p.one_time_income ∧ 0 ≤ p.one_time_expense) evOneTimeOk
    ?_ evs initialParams (by norm_num [initialParams]) h
  intro p e hp hok
  cases e with
  | setRevenue v => exact hp
  | setExpense v => exact hp
  | setOneTimeIncome v =>
      have h2 := hok
      simp only [evOneTimeOk, decide_eq_true_eq] at h2
      exact ⟨h2, hp.2⟩
  | setOneTimeExpense v =>
      have h2 := hok
      simp only [evOneTimeOk, decide_eq_true_eq] at h2
      exact ⟨hp.1, h2⟩
  | resetEvent => norm_num [step, initialParams]
  | applyPresetEvent pr =>
      have h2 := hok
      simp only [evOneTimeOk, Bool.and_eq_true, decide_eq_true_eq] at h2
      constructor
      · cases hr : pr.one_time_income with
        | none => simpa [step, applyPreset, hr] using hp.1
        | some v =>
            have hv : 0 ≤ v := by
              have h3 := h2.1
              rw [hr] at h3
              exact h3
            simpa [step, applyPreset, hr] using hv
      · cases hr : pr.one_time_expense with
        | none => simpa [step, applyPreset, hr] using hp.2
        | some v =>
            have hv : 0 ≤ v := by
              have h3 := h2.2
              rw [hr] at h3
              exact h3
            simpa [step, applyPreset, hr] using hv

/-- Claim C7 (witness): nonnegative one-time entries and a preset with
nonnegative one-time fields. -/
theorem one_time_nonneg_conditional_witness :
    0 ≤ (run [UIEvent.setOneTimeIncome (some 500),
        UIEvent.setOneTimeExpense none,
        UIEvent.applyPresetEvent
          ⟨some 20, none, some 2500, some 0, none,
            some "Cash injection"⟩]).one_time_income ∧
      0 ≤ (run [UIEvent.setOneTimeIncome (some 500),
        UIEvent.setOneTimeExpense none,
        UIEvent.applyPresetEvent
          ⟨some 20, none, some 2500, some 0, none,
            some "Cash injection"⟩]).one_time_expense :=
  one_time_nonneg_conditional
    [UIEvent.setOneTimeIncome (some 500), UIEvent.setOneTimeExpense none,
      UIEvent.applyPresetEvent
        ⟨some 20, none, some 2500, some 0, none, some "Cash injection"⟩]
    (by decide)

/-- The browser state the response interceptor can touch: the stored auth
token (`localStorage.getItem('token')`) and the current location. -/
structure BrowserState where
  token : Option String
  href : String
deriving DecidableEq, Repr

/-- An axios error as seen by the interceptor: `error.response?.status` is
`none` when the request failed without a response (network error). -/
structure HttpError where
  status : Option ℕ
deriving DecidableEq, Repr

/-- The settled outcome of an API call: a fulfilled response carrying data
of type `α`, or a rejection carrying an error. -/
inductive ApiOutcome (α : Type) where
  | success (resp : α)
  | failure (err : HttpError)
deriving DecidableEq

/-- The response interceptor (services/api.js lines 28–39): a fulfilled
response is returned as is; a rejection whose status is 401 removes the
stored token and sets the location to /login, and every rejection is
re-raised via `Promise.reject(error)`.  The result pairs the outcome handed
to the caller with the browser state after the interceptor ran. -/
def responseInterceptor {α : Type} (o : ApiOutcome α) (s : BrowserState) :
    ApiOutcome α × BrowserState :=
  match o with
  | .success r => (.success r, s)
  | .failure e =>
      if e.status = some 401 then
        (.failure e, { token := none, href := "/login" })
      else
        (.failure e, s)

/-- Claim C9: on a 401 rejection the interceptor clears the stored token
and redirects to /login while still propagating the rejection; a fulfilled
response and a rejection with any other status (or no response at all)
pass through with the browser state unchanged. -/
theorem interceptor_handles_401 {α : Type} (r : α) (e : HttpError)
    (s : BrowserState) :
    responseInterceptor (ApiOutcome.success r) s
        = (ApiOutcome.success r, s) ∧
      responseInterceptor (ApiOutcome.failure e : ApiOutcome α) s
        = (ApiOutcome.failure e,
            if e.status = some 401 then
              { token := none, href := "/login" }
            else s) := by
  constructor
  · rfl
  · by_cases h : e.status = some 401
    · simp [responseInterceptor, h]
    · simp [responseInterceptor, h]

/-- The Xero connection status payload returned by GET /auth/xero/status;
the catch branch of `getXeroStatus` builds an object with only
`is_connected`, so the other fields are optional. -/
structure XeroStatus where
  is_connected : Bool
  is_token_valid : Option Bool
  tenant_id : Option String
  last_sync_at : Option String
deriving DecidableEq, Repr

/-- The object literal `{ is_connected: false }` returned by the catch
branch of `getXeroStatus`. -/
def xeroStatusFallback : XeroStatus :=
  { is_connected := false
    is_token_valid := none
    tenant_id := none
    last_sync_at := none }

/-- AuthContext.jsx lines 94–102: `getXeroStatus` wraps the request in
try/catch — on success it returns `response.data`, on any failure it
returns `{ is_connected: false }`.  It is a total function of the request
outcome: no error escapes. -/
def getXeroStatus (o : ApiOutcome XeroStatus) : XeroStatus :=
  match o with
  | .success d => d
  | .failure _ => xeroStatusFallback

/-- Claim C10: `getXeroStatus` never throws — it is total on request
outcomes, returning the response body on success and the defined fallback
`{ is_connected: false }` on every failure. -/
theorem getXeroStatus_total (d : XeroStatus) (e : HttpError) :
    getXeroStatus (ApiOutcome.success d) = d ∧
      getXeroStatus (ApiOutcome.failure e) = xeroStatusFallback ∧
      xeroStatusFallback.is_connected = false := by
  exact ⟨rfl, rfl, rfl⟩

end CashFlow
